import Mathlib

/-!
Shallow embedding of the `bench` package (import-CSV dataset generator and
random query generator) together with proofs about the behaviour its
specification describes.

The Go code draws all randomness from a single `*rand.Rand` seeded at entry
(`rand.New(rand.NewSource(seed))`).  We model that pseudo-random source as an
abstract stream of natural numbers: each bounded draw (`Int63n`, `Intn`)
consumes one stream element and reduces it modulo the bound, so every
behaviour of the real generator corresponds to some stream and vice versa.
Go's panics (`Int63n` on a non-positive bound, `make` with a negative size,
slicing with a negative index, `Perm` of a negative count) are modelled by
`Option`: `none` is a panic.
-/

namespace Bench

/-- Abstract model of the seeded pseudo-random stream backing a `*rand.Rand`:
the values of the successive bounded draws. -/
abbrev RNG := Nat → Nat

/-- The next raw draw of the stream. -/
def RNG.head (r : RNG) : Nat := r 0

/-- The stream after consuming one draw. -/
def RNG.tail (r : RNG) : RNG := fun n => r (n + 1)

/-- The all-zero draw stream, used to evaluate the model at concrete points. -/
def zeroRng : RNG := fun _ => 0

/-- Model of Go `rand.(*Rand).Int63n(n)`: panics (`none`) when `n ≤ 0`,
otherwise returns a value in `[0, n)` — the next stream draw reduced mod `n` —
and the advanced stream. -/
def int63n (r : RNG) (n : Int) : Option (Int × RNG) :=
  if n ≤ 0 then none
  else some (((RNG.head r % n.toNat : Nat) : Int), RNG.tail r)

/-- Model of Go `rand.(*Rand).Intn(n)`: same contract as `Int63n`
(panics on `n ≤ 0`, else uniform in `[0, n)`). -/
def intn (r : RNG) (n : Int) : Option (Int × RNG) :=
  int63n r n

/-- Loop body of Go `rand.(*Rand).Perm(n)` (Fisher–Yates as in the stdlib:
`m := make([]int, n); for i := range m { j := Intn(i+1); m[i] = m[j]; m[j] = i }`).
`k` is the number of remaining iterations, `i` the current index. -/
def permLoop : Nat → Nat → RNG → List Int → Option (List Int × RNG)
  | 0, _, r, m => some (m, r)
  | k + 1, i, r, m =>
    match intn r ((i : Int) + 1) with
    | none => none
    | some (j, r') =>
      permLoop k (i + 1) r' ((m.set i (m.getD j.toNat 0)).set j.toNat (i : Int))

/-- Model of Go `rand.(*Rand).Perm(n)`: a pseudo-random permutation of
`[0, n)`; `make([]int, n)` panics when `n < 0`. -/
def perm (r : RNG) (n : Int) : Option (List Int × RNG) :=
  if n < 0 then none
  else permLoop n.toNat 0 r (List.replicate n.toNat 0)

/-- Model of `sort.Sort` on the source's `Int64Slice` (ascending by `<`):
the sorted permutation of an integer list is unique, so any correct sorting
algorithm — we use insertion sort — produces the value the Go quicksort does. -/
def sortInt64 (l : List Int) : List Int :=
  List.insertionSort (· ≤ ·) l

/-- The inner `for j := int64(0); j < numBitsToSet; j++` loop of
`GenerateImportCSV`: draws `k` profile ids, each
`rng.Int63n(maxProfileID-baseProfileID) + baseProfileID`, in draw order. -/
def drawProfileIDs (baseProfileID maxProfileID : Int) : Nat → RNG → Option (List Int × RNG)
  | 0, r => some ([], r)
  | k + 1, r =>
    match int63n r (maxProfileID - baseProfileID) with
    | none => none
    | some (p, r') =>
      match drawProfileIDs baseProfileID maxProfileID k r' with
      | none => none
      | some (ps, r'') => some ((p + baseProfileID) :: ps, r'')

/-- The ordering applied to a group's drawn profile ids before emission:
`if !randomOrder { sort.Sort(profIDs) }`. -/
def profOrder (randomOrder : Bool) (ps : List Int) : List Int :=
  if randomOrder then ps else sortInt64 ps

/-- One iteration of the bitmap-id loop of `GenerateImportCSV`: draw
`numBitsToSet := rng.Int63n(maxBitsPerMap-minBitsPerMap) + minBitsPerMap`
(inlined below as `nb + minBitsPerMap`), draw that many profile ids, sort
them unless `randomOrder`, and emit one `(bitmapID, profileID)` row per drawn
bit.  A negative `numBitsToSet` makes the Go slice expression
`profileIDs[:numBitsToSet]` panic (`none`).  The returned `Int` is this
group's contribution to `numrows`. -/
def genGroup (baseProfileID maxProfileID minBitsPerMap maxBitsPerMap : Int)
    (randomOrder : Bool) (bitmapID : Int) (r : RNG) :
    Option (List (Int × Int) × Int × RNG) :=
  match int63n r (maxBitsPerMap - minBitsPerMap) with
  | none => none
  | some (nb, r1) =>
    if nb + minBitsPerMap < 0 then none
    else
      match drawProfileIDs baseProfileID maxProfileID (nb + minBitsPerMap).toNat r1 with
      | none => none
      | some (ps, r2) =>
        some ((profOrder randomOrder ps).map (fun p => (bitmapID, p)),
          nb + minBitsPerMap, r2)

/-- The `for i := baseBitmapID; i < maxBitmapID; i++` loop of
`GenerateImportCSV`.  `k` is the number of remaining iterations, `i` the Go
loop variable; when `randomOrder` the group id is `bitmapIDs[i-baseBitmapID]`,
otherwise `i` itself. -/
def importLoop (baseBitmapID baseProfileID maxProfileID minBitsPerMap maxBitsPerMap : Int)
    (randomOrder : Bool) (bitmapIDs : List Int) :
    Nat → Int → RNG → Option (List (Int × Int) × Int × RNG)
  | 0, _, r => some ([], 0, r)
  | k + 1, i, r =>
    match genGroup baseProfileID maxProfileID minBitsPerMap maxBitsPerMap randomOrder
        (if randomOrder then bitmapIDs.getD (i - baseBitmapID).toNat 0 else i) r with
    | none => none
    | some (rows, cnt, r1) =>
      match importLoop baseBitmapID baseProfileID maxProfileID minBitsPerMap maxBitsPerMap
          randomOrder bitmapIDs k (i + 1) r1 with
      | none => none
      | some (rest, cnt', r2) => some (rows ++ rest, cnt + cnt', r2)

/-- Model of `GenerateImportCSV` (src/bench/import.go).  The seeded source
`rand.New(rand.NewSource(seed))` is modelled by the abstract draw stream `r`.
Returns the emitted `(bitmapID, profileID)` rows in emission order together
with the returned `numrows`; `none` models a runtime panic
(`Perm` of a negative count, `make` with negative `maxBitsPerMap`,
`Int63n` on a non-positive bound, negative slice index). -/
def GenerateImportCSV (baseBitmapID maxBitmapID baseProfileID maxProfileID
    minBitsPerMap maxBitsPerMap : Int) (randomOrder : Bool) (r : RNG) :
    Option (List (Int × Int) × Int) :=
  match (if randomOrder then perm r (maxBitmapID - baseBitmapID) else some ([], r)) with
  | none => none
  | some (bitmapIDs, r0) =>
    if maxBitsPerMap < 0 then none
    else
      match importLoop baseBitmapID baseProfileID maxProfileID minBitsPerMap maxBitsPerMap
          randomOrder bitmapIDs (maxBitmapID - baseBitmapID).toNat baseBitmapID r0 with
      | none => none
      | some (rows, cnt, _) => some (rows, cnt)

/-- The `fmt.Fprintf(w, "%d,%d\n", bitmapID, profIDs[j])` line written for one
emitted row. -/
def csvLine (row : Int × Int) : String :=
  toString row.1 ++ "," ++ toString row.2 ++ "\n"

/-- The `k` consecutive integers starting at `i` — the ascending visiting
order of the bitmap-id loop when `randomOrder` is off. -/
def intRange (i : Int) : Nat → List Int
  | 0 => []
  | k + 1 => i :: intRange (i + 1) k

/-- Tagged value type standing in for the `interface{}` values stored in a
`pql.Call`'s argument map (§9 of the spec: integer / string variants). -/
inductive PValue where
  | u64 (n : Nat)
  | i64 (n : Int)
  | str (s : String)
deriving DecidableEq, Repr

/-- Model of `*pql.Call`: `null` is the nil pointer, `node` a call with its
name, argument map (in insertion order) and child calls. -/
inductive Call where
  | null
  | node (name : String) (args : List (String × PValue)) (children : List Call)
deriving Repr

/-- Builder `Bitmap(id, frame)` from src/bench/query.go. -/
def Bitmap (id : Nat) (frame : String) : Call :=
  .node "Bitmap" [("rowID", .u64 id), ("frame", .str frame)] []

/-- Builder `Difference(bms...)` from src/bench/query.go. -/
def Difference (bms : List Call) : Call := .node "Difference" [] bms

/-- Builder `Intersect(bms...)` from src/bench/query.go. -/
def Intersect (bms : List Call) : Call := .node "Intersect" [] bms

/-- Builder `Union(bms...)` from src/bench/query.go. -/
def Union (bms : List Call) : Call := .node "Union" [] bms

/-- Go's `int64(x)` conversion of a `uint64` (or the normalization of any
wrapping 64-bit signed arithmetic result) : reduce into `[-2^63, 2^63)`. -/
def wrap64 (z : Int) : Int := (z + 2 ^ 63) % 2 ^ 64 - 2 ^ 63

/-- Go's `uint64(x)` conversion of an `int64` value. -/
def int64ToUInt64 (z : Int) : Nat := (z % 2 ^ 64).toNat

/-- The configuration part of `QueryGenerator` (src/bench/query.go); the
mutable `R *rand.Rand` state is threaded explicitly as an `RNG` stream. -/
structure QueryGenerator where
  IDToFrameFn : Nat → String
  Frames : List String

/-- `NewQueryGenerator`'s configuration (the seed goes into the stream). -/
def NewQueryGenerator : QueryGenerator :=
  { IDToFrameFn := fun _ => "fbench", Frames := ["fbench"] }

mutual

/-- Model of `(*QueryGenerator).RandomBitmapCall(depth, maxargs, idmin, idmax)`
(src/bench/query.go).  `idmin`, `idmax` are `uint64`; `depth`, `maxargs` are
Go `int`s.  `none` models a panic (`Int63n` on a non-positive bound). -/
def RandomBitmapCall (q : QueryGenerator) (depth maxargs : Int) (idmin idmax : Nat)
    (r : RNG) : Option (Call × RNG) :=
  if _h : depth ≤ 1 then
    match int63n r (wrap64 (wrap64 (idmax : Int) - wrap64 (idmin : Int))) with
    | none => none
    | some (d, r1) =>
      let rowID := wrap64 (d + wrap64 (idmin : Int))
      some (Bitmap (int64ToUInt64 rowID) (q.IDToFrameFn (int64ToUInt64 rowID)), r1)
  else
    match intn r 4 with
    | none => none
    | some (call, r1) =>
      if call = 0 then RandomBitmapCall q 1 0 idmin idmax r1
      else
        match (if maxargs ≤ 2 then some ((2 : Int), r1)
               else
                 match intn r1 (maxargs - 2) with
                 | none => none
                 | some (x, r2) => some (x + 2, r2)) with
        | none => none
        | some (numargs, r2) =>
          match randomBitmapCallList q (depth - 1) maxargs idmin idmax numargs.toNat r2 with
          | none => none
          | some (calls, r3) =>
            if call = 1 then some (Difference calls, r3)
            else if call = 2 then some (Intersect calls, r3)
            else if call = 3 then some (Union calls, r3)
            else some (Call.null, r3)
termination_by (depth.toNat, 0)

/-- The `for i := 0; i < numargs; i++ { calls[i] = q.RandomBitmapCall(...) }`
loop: generates `k` sibling calls, threading the stream. -/
def randomBitmapCallList (q : QueryGenerator) (depth maxargs : Int) (idmin idmax : Nat) :
    Nat → RNG → Option (List Call × RNG)
  | 0, r => some ([], r)
  | k + 1, r =>
    match RandomBitmapCall q depth maxargs idmin idmax r with
    | none => none
    | some (c, r1) =>
      match randomBitmapCallList q depth maxargs idmin idmax k r1 with
      | none => none
      | some (cs, r2) => some (c :: cs, r2)
termination_by k _ => (depth.toNat, k + 1)

end

mutual

/-- The list of child counts of every `Difference`/`Intersect`/`Union` node
occurring in a call tree (the quantity §8 of the spec bounds). -/
def duiCounts : Call → List Nat
  | .null => []
  | .node name _ children =>
    (if name = "Difference" ∨ name = "Intersect" ∨ name = "Union"
      then [children.length] else []) ++ duiCountsList children

/-- `duiCounts` over a list of sibling trees. -/
def duiCountsList : List Call → List Nat
  | [] => []
  | c :: cs => duiCounts c ++ duiCountsList cs

end

/-- A `map[string]interface{}` value: keys are unique; assignment (below)
replaces in place. -/
abbrev ArgMap := List (String × PValue)

/-- Go map assignment `m[k] = v`: replaces the binding of `k` if present,
otherwise adds it. -/
def mapAssign : ArgMap → String → PValue → ArgMap
  | [], k, v => [(k, v)]
  | (k', v') :: rest, k, v =>
    if k' = k then (k, v) :: rest else (k', v') :: mapAssign rest k v

/-- Heap of allocated argument maps: Go maps are references, so mutating
through one reference must not affect the map behind another.  A reference is
an index into `maps`. -/
structure Heap where
  maps : List ArgMap

/-- Dereference: the contents behind reference `ref`. -/
def Heap.get (h : Heap) (ref : Nat) : ArgMap := h.maps.getD ref []

/-- `make(map[string]interface{})` plus initialization: allocates a fresh
reference holding `m`. -/
def Heap.alloc (h : Heap) (m : ArgMap) : Heap × Nat :=
  (⟨h.maps ++ [m]⟩, h.maps.length)

/-- In-place `m[k] = v` through reference `ref`. -/
def Heap.assign (h : Heap) (ref : Nat) (k : String) (v : PValue) : Heap :=
  ⟨h.maps.set ref (mapAssign (h.get ref) k v)⟩

/-- Model of `copyArgs(m)` (src/bench/query.go): a shallow copy — a freshly
allocated map with the same contents. -/
def copyArgs (h : Heap) (mref : Nat) : Heap × Nat :=
  h.alloc (h.get mref)

/-- A constructed call node whose argument map lives on the heap (used by the
attrs-taking builders, whose aliasing behaviour is the point of §4.2). -/
structure CallH where
  name : String
  argsRef : Nat

/-- Model of `SetRowAttrs(id, frame, attrs)` (src/bench/query.go):
`args := copyArgs(attrs); args["id"] = id; args["columnID"] = frame`. -/
def SetRowAttrs (h : Heap) (id : Nat) (frame : String) (attrs : Nat) : Heap × CallH :=
  let (h1, args) := copyArgs h attrs
  let h2 := h1.assign args "id" (.u64 id)
  let h3 := h2.assign args "columnID" (.str frame)
  (h3, { name := "SetRowAttrs", argsRef := args })

/-- Model of `SetColumnAttrs(id, attrs)` (src/bench/query.go):
`args := copyArgs(attrs); args["id"] = id`. -/
def SetColumnAttrs (h : Heap) (id : Nat) (attrs : Nat) : Heap × CallH :=
  let (h1, args) := copyArgs h attrs
  let h2 := h1.assign args "id" (.u64 id)
  (h2, { name := "SetColumnAttrs", argsRef := args })

/-- Modelled from the spec: the `Result` type and its `NewResult`/`Add`
operations are referenced by src/bench/query.go but defined elsewhere in the
repository.  §3 of the spec: an accumulated list of (duration,
response-or-nil) pairs plus an optional terminal error, append-only during a
run.  `ρ` is the client's response type; durations are abstract `Nat`s. -/
structure Result (ρ : Type) where
  stats : List (Nat × Option ρ)
  err : Option String

/-- Modelled from the spec: `NewResult()` — an empty, error-free result. -/
def NewResult {ρ : Type} : Result ρ := { stats := [], err := none }

/-- Modelled from the spec: `(*Result).Add(duration, response)` appends one
measurement. -/
def Result.add {ρ : Type} (res : Result ρ) (d : Nat) (resp : Option ρ) : Result ρ :=
  { res with stats := res.stats ++ [(d, resp)] }

/-- The iteration loop of `(*Query).Run` (src/bench/query.go).  The external
client is modelled as a function from the call index to the
(response, error) pair `b.ExecuteQuery` produces on that call; `dur` gives the
measured wall-clock duration of each call.  Note the source calls
`results.Add` *before* checking `err`. -/
def queryRunLoop {ρ : Type} (client : Nat → Option ρ × Option String) (dur : Nat → Nat) :
    Nat → Nat → Result ρ → Result ρ
  | 0, _, res => res
  | k + 1, n, res =>
    let (resp, err) := client n
    let res1 := res.add (dur n) resp
    match err with
    | some e =>
      { res1 with err := some ("problem with query #" ++ toString n ++ ": " ++ e) }
    | none => queryRunLoop client dur k (n + 1) res1

/-- Model of `(*Query).Run` (src/bench/query.go): `clientSet` is whether
`b.client != nil`; `iterations` is the Go `int` field `b.Iterations`. -/
def QueryRun {ρ : Type} (clientSet : Bool) (client : Nat → Option ρ × Option String)
    (dur : Nat → Nat) (iterations : Int) : Result ρ :=
  if !clientSet then
    { NewResult with err := some "No client set for Query benchmark" }
  else queryRunLoop client dur iterations.toNat 0 NewResult

/-- The per-iteration query of `(*BasicQuery).Run`: the template's `Bitmap`
children all get `Args["rowID"] = b.BaseRowID + int64(n)` before submission. -/
def basicQueryAt (queryName frame : String) (numArgs : Nat) (baseRowID : Int) (n : Nat) : Call :=
  .node queryName []
    (List.replicate numArgs
      (.node "Bitmap" (mapAssign [("frame", .str frame)] "rowID" (.i64 (baseRowID + (n : Int)))) []))

/-- The iteration loop of `(*BasicQuery).Run` (src/bench/query.go): submits
the mutated template, records `Add(time.Since(start), nil)` *before* checking
the error, and on error stores it unwrapped and stops. -/
def basicQueryRunLoop {ρ : Type} (client : Nat → Call → Option ρ × Option String)
    (dur : Nat → Nat) (queryName frame : String) (numArgs : Nat) (baseRowID : Int) :
    Nat → Nat → Result ρ → Result ρ
  | 0, _, res => res
  | k + 1, n, res =>
    let (_resp, err) := client n (basicQueryAt queryName frame numArgs baseRowID n)
    let res1 := res.add (dur n) none
    match err with
    | some e => { res1 with err := some e }
    | none => basicQueryRunLoop client dur queryName frame numArgs baseRowID k (n + 1) res1

/-- Model of `(*BasicQuery).Run` (src/bench/query.go).  `none` models the
panic of `make([]*pql.Call, b.NumArgs)` on a negative `NumArgs`. -/
def BasicQueryRun {ρ : Type} (clientSet : Bool) (client : Nat → Call → Option ρ × Option String)
    (dur : Nat → Nat) (queryName frame : String) (numArgs : Int) (baseRowID : Int)
    (iterations : Int) : Option (Result ρ) :=
  if !clientSet then
    some { NewResult with err := some "No client set for BasicQuery" }
  else if numArgs < 0 then none
  else
    some (basicQueryRunLoop client dur queryName frame numArgs.toNat baseRowID
      iterations.toNat 0 NewResult)

/-- The configuration fields of the `Import` benchmark struct
(src/bench/import.go). -/
structure Import where
  name : String
  host : String
  baseBitmapID : Int
  maxBitmapID : Int
  baseProfileID : Int
  maxProfileID : Int
  randomBitmapOrder : Bool
  minBitsPerMap : Int
  maxBitsPerMap : Int
  agentControls : String
  seed : Int
  numbits : Int

/-- Model of `(*Import).Init(hosts, agentNum)` (src/bench/import.go).  The
temp-file sink is abstract: on success the generated rows are returned next to
the updated struct.  `r` models the stream of the source seeded with
`b.Seed + agentNum`; outer `none` is a panic inside `GenerateImportCSV`,
`Except.error` a returned Go error. -/
def ImportInit (b : Import) (hosts : List String) (agentNum : Int) (r : RNG) :
    Option (Except String (Import × List (Int × Int) × Int)) :=
  if hosts.length = 0 then some (.error "Need at least one host")
  else
    let b1 := { b with name := "import", host := hosts.getD 0 "", seed := b.seed + agentNum }
    match
      (if b1.agentControls = "height" then
        let numBitmapIDs := b1.maxBitmapID - b1.baseBitmapID
        let base := b1.baseBitmapID + numBitmapIDs * agentNum
        Except.ok { b1 with baseBitmapID := base, maxBitmapID := base + numBitmapIDs }
      else if b1.agentControls = "width" then
        let numProfileIDs := b1.maxProfileID - b1.baseProfileID
        let base := b1.baseProfileID + numProfileIDs * agentNum
        Except.ok { b1 with baseProfileID := base, maxProfileID := base + numProfileIDs }
      else if b1.agentControls = "" then Except.ok b1
      else Except.error ("agent-controls: '" ++ b1.agentControls ++ "' is not supported")) with
    | .error e => some (.error e)
    | .ok b2 =>
      match GenerateImportCSV b2.baseBitmapID b2.maxBitmapID b2.baseProfileID b2.maxProfileID
          b2.minBitsPerMap b2.maxBitsPerMap b2.randomBitmapOrder r with
      | none => none
      | some (rows, num) => some (.ok ({ b2 with numbits := num }, rows, num))

/-- A client for the runner models whose submission succeeds on the first two
calls and fails on the third (used to evaluate the failure scenario). -/
def failThirdClient : Nat → Option Unit × Option String :=
  fun n => (none, if n = 2 then some "connection refused" else none)

/-- `failThirdClient` for the `BasicQuery` runner (ignores the query). -/
def failThirdClientB : Nat → Call → Option Unit × Option String :=
  fun n _ => (none, if n = 2 then some "connection refused" else none)

/-- A concrete `Import` configuration used to evaluate `ImportInit`. -/
def sampleImport : Import :=
  { name := "", host := "", baseBitmapID := 0, maxBitmapID := 3, baseProfileID := 0,
    maxProfileID := 100, randomBitmapOrder := false, minBitsPerMap := 1, maxBitsPerMap := 2,
    agentControls := "bogus", seed := 42, numbits := 0 }

/-! ## Theorems -/

theorem wrap64_eq_self {z : Int} (h1 : -(2 ^ 63) ≤ z) (h2 : z < 2 ^ 63) : wrap64 z = z := by
  have h : (z + 2 ^ 63) % 2 ^ 64 = z + 2 ^ 63 := Int.emod_eq_of_lt (by omega) (by omega)
  unfold wrap64
  omega

/-- The terminal branch of `RandomBitmapCall`: for `depth ≤ 1` and a
well-formed id range below `2^63`, the result is a leaf `Bitmap` node whose
row id is `idmin` plus the draw reduced modulo the range width. -/
theorem rbc_leaf (q : QueryGenerator) (depth maxargs : Int) (idmin idmax : Nat) (r : RNG)
    (hdepth : depth ≤ 1) (hlt : idmin < idmax) (hmax : idmax < 2 ^ 63) :
    RandomBitmapCall q depth maxargs idmin idmax r =
      some (Bitmap (idmin + RNG.head r % (idmax - idmin))
        (q.IDToFrameFn (idmin + RNG.head r % (idmax - idmin))), RNG.tail r) := by
  have hmaxI : ((idmax : Int)) < 2 ^ 63 := by exact_mod_cast hmax
  have hltI : (idmin : Int) < idmax := by exact_mod_cast hlt
  have w1 : wrap64 (idmax : Int) = idmax := wrap64_eq_self (by omega) (by omega)
  have w2 : wrap64 (idmin : Int) = idmin := wrap64_eq_self (by omega) (by omega)
  have w3 : wrap64 ((idmax : Int) - idmin) = (idmax : Int) - idmin :=
    wrap64_eq_self (by omega) (by omega)
  have hmodlt : RNG.head r % (idmax - idmin) < idmax - idmin :=
    Nat.mod_lt _ (by omega)
  have htn : (((idmax : Int) - idmin)).toNat = idmax - idmin := by omega
  have w4 : wrap64 (((RNG.head r % (idmax - idmin) : Nat) : Int) + (idmin : Int)) =
      ((RNG.head r % (idmax - idmin) : Nat) : Int) + (idmin : Int) :=
    wrap64_eq_self (by omega) (by omega)
  have hval : int64ToUInt64 (((RNG.head r % (idmax - idmin) : Nat) : Int) + (idmin : Int)) =
      idmin + RNG.head r % (idmax - idmin) := by
    unfold int64ToUInt64
    rw [Int.emod_eq_of_lt (by omega) (by omega)]
    omega
  rw [RandomBitmapCall, dif_pos hdepth, w1, w2, w3, int63n,
    if_neg (show ¬ ((idmax : Int) - idmin ≤ 0) by omega), htn]
  simp only [w4, hval]

/-- Whatever the id range, a `depth ≤ 1` call that returns normally returns a
`Bitmap` leaf. -/
theorem rbc_leaf_shape (q : QueryGenerator) (depth maxargs : Int) (idmin idmax : Nat)
    (r : RNG) (c : Call) (r' : RNG) (hdepth : depth ≤ 1)
    (h : RandomBitmapCall q depth maxargs idmin idmax r = some (c, r')) :
    ∃ id, c = Bitmap id (q.IDToFrameFn id) := by
  rw [RandomBitmapCall, dif_pos hdepth] at h
  cases hm : int63n r (wrap64 (wrap64 (idmax : Int) - wrap64 (idmin : Int))) with
  | none => rw [hm] at h; exact absurd h (by simp)
  | some v =>
    rw [hm] at h
    refine ⟨int64ToUInt64 (wrap64 (v.1 + wrap64 (idmin : Int))), ?_⟩
    cases v with
    | mk d r1 =>
      simp only [Option.some.injEq, Prod.mk.injEq] at h
      exact h.1.symm

/-- C5 (counterexample): at `idMin = idMax = 5` (which satisfies the claim's
`idMin ≤ idMax`) and `depth = 1`, `RandomBitmapCall` panics
(`Int63n` is called with bound `0`) instead of returning a terminal node. -/
theorem randomBitmapCall_equal_bounds_panics :
    RandomBitmapCall NewQueryGenerator 1 0 5 5 zeroRng = none := by
  simp [RandomBitmapCall, int63n, wrap64]

/-- C5 (amended): for all `idMin < idMax` with `idMax < 2^63` and all
`depth ≤ 1`, `RandomBitmapCall` returns a terminal "Bitmap" node whose rowID
argument lies in `[idMin, idMax)`. -/
theorem randomBitmapCall_terminal (q : QueryGenerator) (depth maxargs : Int)
    (idmin idmax : Nat) (r : RNG) (hdepth : depth ≤ 1) (hlt : idmin < idmax)
    (hmax : idmax < 2 ^ 63) :
    ∃ rowID r', RandomBitmapCall q depth maxargs idmin idmax r =
        some (Bitmap rowID (q.IDToFrameFn rowID), r') ∧
      idmin ≤ rowID ∧ rowID < idmax := by
  refine ⟨idmin + RNG.head r % (idmax - idmin), RNG.tail r,
    rbc_leaf q depth maxargs idmin idmax r hdepth hlt hmax, by omega, ?_⟩
  have := Nat.mod_lt (RNG.head r) (show 0 < idmax - idmin by omega)
  omega

/-- Witness for `randomBitmapCall_terminal` at `depth = 1`, range `[0, 10)`. -/
theorem randomBitmapCall_terminal_witness :
    ∃ rowID r', RandomBitmapCall NewQueryGenerator 1 0 0 10 zeroRng =
        some (Bitmap rowID (NewQueryGenerator.IDToFrameFn rowID), r') ∧
      0 ≤ rowID ∧ rowID < 10 :=
  randomBitmapCall_terminal NewQueryGenerator 1 0 0 10 zeroRng (by norm_num) (by norm_num)
    (by norm_num)

/-- C10: `RandomBitmapCall` never returns the nil pointer: whenever it
returns normally, the result is a non-null call node — the trailing
`return nil` after the `Difference`/`Intersect`/`Union` switch is unreachable
because the operation selector drawn from `Intn(4)` is in `{1,2,3}` there. -/
theorem randomBitmapCall_never_null (q : QueryGenerator) (depth maxargs : Int)
    (idmin idmax : Nat) (r : RNG) (c : Call) (r' : RNG)
    (h : RandomBitmapCall q depth maxargs idmin idmax r = some (c, r')) :
    c ≠ Call.null := by
  by_cases hd : depth ≤ 1
  · obtain ⟨id, rfl⟩ := rbc_leaf_shape q depth maxargs idmin idmax r c r' hd h
    simp [Bitmap]
  · rw [RandomBitmapCall, dif_neg hd] at h
    have h4 : intn r 4 = some (((RNG.head r % 4 : Nat) : Int), RNG.tail r) := by
      simp [intn, int63n]
    split at h
    · exact absurd h (by simp)
    · rename_i call r1 heq
      rw [h4] at heq
      simp only [Option.some.injEq, Prod.mk.injEq] at heq
      obtain ⟨hcall, hr1⟩ := heq
      split at h
      · obtain ⟨id, rfl⟩ := rbc_leaf_shape q 1 0 idmin idmax r1 c r' (by norm_num) h
        simp [Bitmap]
      · rename_i hc0
        split at h
        · exact absurd h (by simp)
        · rename_i numargs r2 _hna
          split at h
          · exact absurd h (by simp)
          · rename_i calls r3 _hl
            split at h
            · simp only [Option.some.injEq, Prod.mk.injEq] at h
              rw [← h.1]
              simp [Difference]
            · split at h
              · simp only [Option.some.injEq, Prod.mk.injEq] at h
                rw [← h.1]
                simp [Intersect]
              · split at h
                · simp only [Option.some.injEq, Prod.mk.injEq] at h
                  rw [← h.1]
                  simp [Union]
                · exfalso
                  rename_i h1 h2 h3
                  have hlt4 : RNG.head r % 4 < 4 := Nat.mod_lt _ (by norm_num)
                  rw [← hcall] at hc0 h1 h2 h3
                  omega

/-- Witness for `randomBitmapCall_never_null` at a concrete leaf call. -/
theorem randomBitmapCall_never_null_witness :
    Bitmap 0 "fbench" ≠ Call.null :=
  randomBitmapCall_never_null NewQueryGenerator 1 0 0 10 zeroRng
    (Bitmap 0 "fbench") (RNG.tail zeroRng)
    (rbc_leaf NewQueryGenerator 1 0 0 10 zeroRng (by norm_num) (by norm_num) (by norm_num))

/-- C1: with `randomOrder = true` and `baseBitmapID = 5 < 7 = maxBitmapID`,
the generator emits the permuted values of `Perm(maxBitmapID-baseBitmapID)`
directly — `baseBitmapID` is never added back — so every emitted row's
bitmap id lies below `baseBitmapID`, contradicting the documented invariant
`bitmap_id ∈ [base_bitmap_id, max_bitmap_id)`. -/
theorem generateImportCSV_randomOrder_ignores_base :
    GenerateImportCSV 5 7 0 10 1 2 true zeroRng = some ([(1, 0), (0, 0)], 2) ∧
    (([((1 : Int), (0 : Int)), ((0 : Int), (0 : Int))] : List (Int × Int)).all
      (fun p => decide (p.1 < 5))) = true := by
  constructor
  · decide
  · decide

/-- C3 (counterexample): the degenerate bits-per-map range
`minBitsPerMap = maxBitsPerMap = 2` makes `GenerateImportCSV` panic
(`Int63n` called with bound `0`) on the first bitmap group instead of
emitting zero rows and returning 0. -/
theorem generateImportCSV_degenerate_bits_panics :
    GenerateImportCSV 0 1 0 100 2 2 false zeroRng = none := by decide

/-- C3 (amended): an empty bitmap-id range (`maxBitmapID ≤ baseBitmapID`)
with `randomOrder = false` and a non-negative `maxBitsPerMap` yields zero
emitted rows and return value 0 without failing; degenerate bits-per-map or
profile-id ranges instead panic as soon as a bitmap group is processed. -/
theorem generateImportCSV_empty_bitmap_range (baseBitmapID maxBitmapID baseProfileID
    maxProfileID minBitsPerMap maxBitsPerMap : Int) (r : RNG)
    (hrange : maxBitmapID ≤ baseBitmapID) (hmb : 0 ≤ maxBitsPerMap) :
    GenerateImportCSV baseBitmapID maxBitmapID baseProfileID maxProfileID
      minBitsPerMap maxBitsPerMap false r = some ([], 0) := by
  have h0 : (maxBitmapID - baseBitmapID).toNat = 0 := by omega
  rw [GenerateImportCSV]
  simp [h0, importLoop, show ¬ maxBitsPerMap < 0 by omega]

/-- Witness for `generateImportCSV_empty_bitmap_range` at `max ≤ base`. -/
theorem generateImportCSV_empty_bitmap_range_witness :
    GenerateImportCSV 5 3 0 100 1 2 false zeroRng = some ([], 0) :=
  generateImportCSV_empty_bitmap_range 5 3 0 100 1 2 zeroRng (by norm_num) (by norm_num)

/-- C6: `Init` with an empty host list fails with the configuration error
"Need at least one host"; `Init` with an unrecognized `agent-controls` string
fails with the "not supported" configuration error.  Both cases return the
error for every random stream, before any import data is generated. -/
theorem importInit_config_errors (b : Import) (hosts : List String) (agentNum : Int)
    (r : RNG) :
    (hosts = [] → ImportInit b hosts agentNum r = some (.error "Need at least one host")) ∧
    (hosts ≠ [] → b.agentControls ≠ "height" → b.agentControls ≠ "width" →
      b.agentControls ≠ "" →
      ImportInit b hosts agentNum r =
        some (.error ("agent-controls: '" ++ b.agentControls ++ "' is not supported"))) := by
  constructor
  · intro hempty
    subst hempty
    rw [ImportInit]
    simp
  · intro hne hh hw he
    rw [ImportInit]
    have hlen : ¬ hosts.length = 0 := by
      cases hosts with
      | nil => exact absurd rfl hne
      | cons a l => simp
    rw [if_neg hlen]
    simp [hh, hw, he]

/-- Witness for `importInit_config_errors`: the empty host list and the
`agent-controls = "bogus"` configuration, at concrete inputs. -/
theorem importInit_config_errors_witness :
    ImportInit sampleImport [] 0 zeroRng = some (.error "Need at least one host") ∧
    ImportInit sampleImport ["host1"] 0 zeroRng =
      some (.error "agent-controls: 'bogus' is not supported") :=
  ⟨(importInit_config_errors sampleImport [] 0 zeroRng).1 rfl,
   (importInit_config_errors sampleImport ["host1"] 0 zeroRng).2 (by simp) (by decide)
     (by decide) (by decide)⟩

theorem duiCounts_Bitmap (id : Nat) (fr : String) : duiCounts (Bitmap id fr) = [] := by
  simp [duiCounts, duiCountsList, Bitmap]

theorem duiCounts_node_op (name : String) (args : List (String × PValue))
    (children : List Call) :
    duiCounts (.node name args children) =
      (if name = "Difference" ∨ name = "Intersect" ∨ name = "Union"
        then [children.length] else []) ++ duiCountsList children := by
  rw [duiCounts]

theorem duiCountsList_mem (k : Nat) (cs : List Call) :
    k ∈ duiCountsList cs ↔ ∃ c ∈ cs, k ∈ duiCounts c := by
  induction cs with
  | nil => simp [duiCountsList]
  | cons c cs ih => simp [duiCountsList, ih]

theorem rbcList_length (q : QueryGenerator) (depth maxargs : Int) (idmin idmax : Nat) :
    ∀ (k : Nat) (r : RNG) (cs : List Call) (r' : RNG),
      randomBitmapCallList q depth maxargs idmin idmax k r = some (cs, r') →
      cs.length = k := by
  intro k
  induction k with
  | zero =>
    intro r cs r' h
    rw [randomBitmapCallList] at h
    simp only [Option.some.injEq, Prod.mk.injEq] at h
    rw [← h.1]
    rfl
  | succ k ihk =>
    intro r cs r' h
    rw [randomBitmapCallList] at h
    split at h
    · exact absurd h (by simp)
    · split at h
      · exact absurd h (by simp)
      · rename_i cs1 r2 h1
        simp only [Option.some.injEq, Prod.mk.injEq] at h
        rw [← h.1]
        simp [ihk _ cs1 r2 h1]

theorem rbcList_provenance (q : QueryGenerator) (depth maxargs : Int) (idmin idmax : Nat) :
    ∀ (k : Nat) (r : RNG) (cs : List Call) (r' : RNG),
      randomBitmapCallList q depth maxargs idmin idmax k r = some (cs, r') →
      ∀ c ∈ cs, ∃ rr rr', RandomBitmapCall q depth maxargs idmin idmax rr = some (c, rr') := by
  intro k
  induction k with
  | zero =>
    intro r cs r' h c hc
    rw [randomBitmapCallList] at h
    simp only [Option.some.injEq, Prod.mk.injEq] at h
    rw [← h.1] at hc
    exact absurd hc (List.not_mem_nil c)
  | succ k ihk =>
    intro r cs r' h c hc
    rw [randomBitmapCallList] at h
    split at h
    · exact absurd h (by simp)
    · split at h
      · exact absurd h (by simp)
      · rename_i cHead rHead h0 _x2 cs1 r2 h1
        simp only [Option.some.injEq, Prod.mk.injEq] at h
        rw [← h.1] at hc
        rcases List.mem_cons.mp hc with hceq | hmem
        · exact ⟨r, rHead, by rw [hceq]; exact h0⟩
        · exact ihk rHead cs1 r2 h1 c hmem

/-- Child-count bound for every `Difference`/`Intersect`/`Union` node in a
generated tree: at least 2; exactly 2 when `maxargs ≤ 2`; at most
`maxargs - 1` when `maxargs > 2`.  Strong induction on `depth.toNat`. -/
theorem rbc_duiCounts_bound :
    ∀ (n : Nat) (q : QueryGenerator) (depth maxargs : Int) (idmin idmax : Nat) (r : RNG)
      (c : Call) (r' : RNG), depth.toNat ≤ n →
      RandomBitmapCall q depth maxargs idmin idmax r = some (c, r') →
      ∀ k ∈ duiCounts c,
        2 ≤ k ∧ (maxargs ≤ 2 → k = 2) ∧ (2 < maxargs → (k : Int) ≤ maxargs - 1) := by
  intro n
  induction n with
  | zero =>
    intro q depth maxargs idmin idmax r c r' hn h k hk
    obtain ⟨id, rfl⟩ := rbc_leaf_shape q depth maxargs idmin idmax r c r' (by omega) h
    rw [duiCounts_Bitmap] at hk
    exact absurd hk (List.not_mem_nil k)
  | succ n ih =>
    intro q depth maxargs idmin idmax r c r' hn h k hk
    by_cases hd : depth ≤ 1
    · obtain ⟨id, rfl⟩ := rbc_leaf_shape q depth maxargs idmin idmax r c r' hd h
      rw [duiCounts_Bitmap] at hk
      exact absurd hk (List.not_mem_nil k)
    · rw [RandomBitmapCall, dif_neg hd] at h
      split at h
      · exact absurd h (by simp)
      · rename_i call r1 _heq
        split at h
        · obtain ⟨id, rfl⟩ := rbc_leaf_shape q 1 0 idmin idmax r1 c r' (by norm_num) h
          rw [duiCounts_Bitmap] at hk
          exact absurd hk (List.not_mem_nil k)
        · rename_i hc0
          split at h
          · exact absurd h (by simp)
          · rename_i numargs r2 hna
            split at h
            · exact absurd h (by simp)
            · rename_i calls r3 hl
              have hnum : 2 ≤ numargs ∧ (maxargs ≤ 2 → numargs = 2) ∧
                  (2 < maxargs → numargs ≤ maxargs - 1) := by
                split at hna
                · rename_i hm2
                  simp only [Option.some.injEq, Prod.mk.injEq] at hna
                  obtain ⟨hna1, -⟩ := hna
                  omega
                · rename_i hm2
                  split at hna
                  · exact absurd hna (by simp)
                  · rename_i x r2' hx
                    rw [intn, int63n, if_neg (show ¬ maxargs - 2 ≤ 0 by omega)] at hx
                    simp only [Option.some.injEq, Prod.mk.injEq] at hx hna
                    obtain ⟨hx1, -⟩ := hx
                    obtain ⟨hna1, -⟩ := hna
                    have hmlt : RNG.head r1 % (maxargs - 2).toNat < (maxargs - 2).toNat :=
                      Nat.mod_lt _ (by omega)
                    omega
              have hlen : calls.length = numargs.toNat :=
                rbcList_length q (depth - 1) maxargs idmin idmax numargs.toNat r2 calls r3 hl
              have hdui : duiCounts c = calls.length :: duiCountsList calls := by
                split at h
                · simp only [Option.some.injEq, Prod.mk.injEq] at h
                  rw [← h.1, Difference, duiCounts_node_op]
                  simp
                · split at h
                  · simp only [Option.some.injEq, Prod.mk.injEq] at h
                    rw [← h.1, Intersect, duiCounts_node_op]
                    simp
                  · split at h
                    · simp only [Option.some.injEq, Prod.mk.injEq] at h
                      rw [← h.1, Union, duiCounts_node_op]
                      simp
                    · exfalso
                      rename_i h1 h2 h3
                      have hlt4 : RNG.head r % 4 < 4 := Nat.mod_lt _ (by norm_num)
                      rw [intn, int63n] at _heq
                      simp only [show ¬ (4 : Int) ≤ 0 by norm_num, if_false,
                        Option.some.injEq, Prod.mk.injEq] at _heq
                      obtain ⟨hcall, -⟩ := _heq
                      rw [show ((4 : Int)).toNat = 4 from rfl] at hcall
                      omega
              rw [hdui] at hk
              rcases List.mem_cons.mp hk with hkeq | hmem
              · refine ⟨by omega, fun hm2 => by omega, fun hm2 => ?_⟩
                have h2n : numargs.toNat = k := by omega
                omega
              · obtain ⟨c', hc'mem, hk'⟩ := (duiCountsList_mem k calls).mp hmem
                obtain ⟨rr, rr', hprov⟩ :=
                  rbcList_provenance q (depth - 1) maxargs idmin idmax numargs.toNat r2
                    calls r3 hl c' hc'mem
                exact ih q (depth - 1) maxargs idmin idmax rr c' rr' (by omega) hprov k hk'

/-- A sibling list generated at `depth = 1` over the range `[0, 10)` always
succeeds and consists of `Bitmap` leaves only. -/
theorem rbcList_leaves (q : QueryGenerator) (maxargs : Int) :
    ∀ (k : Nat) (r : RNG), ∃ cs r',
      randomBitmapCallList q 1 maxargs 0 10 k r = some (cs, r') ∧
      duiCountsList cs = [] ∧ cs.length = k := by
  intro k
  induction k with
  | zero => exact fun r => ⟨[], r, by rw [randomBitmapCallList], rfl, rfl⟩
  | succ k ihk =>
    intro r
    obtain ⟨cs, r', h1, h2, h3⟩ := ihk (RNG.tail r)
    refine ⟨Bitmap (0 + RNG.head r % (10 - 0)) (q.IDToFrameFn (0 + RNG.head r % (10 - 0))) :: cs,
      r', ?_, ?_, ?_⟩
    · rw [randomBitmapCallList,
        rbc_leaf q 1 maxargs 0 10 r (le_refl 1) (by norm_num) (by norm_num)]
      simp [h1]
    · simp [duiCountsList, duiCounts_Bitmap, h2]
    · simp [h3]

/-- C4 (amended): every generated `Difference`/`Intersect`/`Union` node has
child count in `[2, maxargs-1]` when `maxargs > 2` (fixed at 2 when
`maxargs ≤ 2`), and every value of `[2, maxargs-1]` occurs for some random
draw; the value `maxargs` itself is never drawn. -/
theorem randomBitmapCall_child_counts :
    (∀ (q : QueryGenerator) (depth maxargs : Int) (idmin idmax : Nat) (r : RNG)
        (c : Call) (r' : RNG),
        RandomBitmapCall q depth maxargs idmin idmax r = some (c, r') →
        ∀ k ∈ duiCounts c,
          2 ≤ k ∧ (maxargs ≤ 2 → k = 2) ∧ (2 < maxargs → (k : Int) ≤ maxargs - 1)) ∧
    (∀ (maxargs : Int) (k : Nat), 2 < maxargs → 2 ≤ k → (k : Int) ≤ maxargs - 1 →
        ∃ r c r', RandomBitmapCall NewQueryGenerator 2 maxargs 0 10 r = some (c, r') ∧
          duiCounts c = [k]) := by
  constructor
  · intro q depth maxargs idmin idmax r c r' h k hk
    exact rbc_duiCounts_bound depth.toNat q depth maxargs idmin idmax r c r' le_rfl h k hk
  · intro maxargs k hm hk2 hkm
    set r : RNG := fun n => if n = 0 then 1 else if n = 1 then k - 2 else 0 with hr
    obtain ⟨cs, rend, hlist, hdui, hlen⟩ :=
      rbcList_leaves NewQueryGenerator maxargs k (RNG.tail (RNG.tail r))
    have hkm' : (k : Int) ≤ maxargs - 1 := hkm
    refine ⟨r, Difference cs, rend, ?_, ?_⟩
    · rw [RandomBitmapCall, dif_neg (by norm_num : ¬ (2 : Int) ≤ 1)]
      have h4 : intn r 4 = some ((1 : Int), RNG.tail r) := by
        rw [intn, int63n, if_neg (by norm_num : ¬ (4 : Int) ≤ 0)]
        simp [RNG.head, hr]
      rw [h4]
      have h5 : intn (RNG.tail r) (maxargs - 2) =
          some (((k : Int) - 2), RNG.tail (RNG.tail r)) := by
        rw [intn, int63n, if_neg (by omega : ¬ maxargs - 2 ≤ 0)]
        have hh : RNG.head (RNG.tail r) = k - 2 := by
          simp [RNG.head, RNG.tail, hr]
        rw [hh, Nat.mod_eq_of_lt (by omega)]
        have : ((k - 2 : Nat) : Int) = (k : Int) - 2 := by omega
        rw [this]
      simp only [if_neg (by omega : ¬ maxargs ≤ 2), h5]
      have htn : ((k : Int) - 2 + 2).toNat = k := by omega
      simp only [show (2 : Int) - 1 = 1 from rfl, htn, hlist]
      norm_num
    · rw [Difference, duiCounts_node_op]
      simp [hdui, hlen]

/-- C4 (counterexample): with `maxargs = 3` the claim's "every value in
`[2, maxArgs]` occurs" fails — no generated tree ever contains a
`Difference`/`Intersect`/`Union` node with 3 children, for any random draw. -/
theorem randomBitmapCall_maxargs_never_reached :
    ¬ ∃ (r : RNG) (c : Call) (r' : RNG),
        RandomBitmapCall NewQueryGenerator 2 3 0 10 r = some (c, r') ∧
        3 ∈ duiCounts c := by
  rintro ⟨r, c, r', h, hk⟩
  obtain ⟨h1, h2, h3⟩ :=
    rbc_duiCounts_bound 2 NewQueryGenerator 2 3 0 10 r c r' (by norm_num) h 3 hk
  have := h3 (by norm_num)
  norm_num at this

/-- Witness for `randomBitmapCall_child_counts`: with `maxargs = 4` a child
count of 3 (which is in `[2, maxargs-1]`) occurs for some draw. -/
theorem randomBitmapCall_child_counts_witness :
    ∃ r c r', RandomBitmapCall NewQueryGenerator 2 4 0 10 r = some (c, r') ∧
      duiCounts c = [3] :=
  randomBitmapCall_child_counts.2 4 3 (by norm_num) (by norm_num) (by norm_num)

theorem queryRunLoop_step_ok {ρ : Type} (client : Nat → Option ρ × Option String)
    (dur : Nat → Nat) (k n : Nat) (res : Result ρ) (h : (client n).2 = none) :
    queryRunLoop client dur (k + 1) n res =
      queryRunLoop client dur k (n + 1) (res.add (dur n) (client n).1) := by
  rw [queryRunLoop, show client n = ((client n).1, none) from by rw [← h]]

theorem queryRunLoop_step_fail {ρ : Type} (client : Nat → Option ρ × Option String)
    (dur : Nat → Nat) (k n : Nat) (res : Result ρ) (e : String)
    (h : (client n).2 = some e) :
    queryRunLoop client dur (k + 1) n res =
      { res.add (dur n) (client n).1 with
        err := some ("problem with query #" ++ toString n ++ ": " ++ e) } := by
  rw [queryRunLoop, show client n = ((client n).1, some e) from by rw [← h]]

theorem basicQueryRunLoop_step_ok {ρ : Type} (client : Nat → Call → Option ρ × Option String)
    (dur : Nat → Nat) (queryName frame : String) (numArgs : Nat) (baseRowID : Int)
    (k n : Nat) (res : Result ρ)
    (h : (client n (basicQueryAt queryName frame numArgs baseRowID n)).2 = none) :
    basicQueryRunLoop client dur queryName frame numArgs baseRowID (k + 1) n res =
      basicQueryRunLoop client dur queryName frame numArgs baseRowID k (n + 1)
        (res.add (dur n) none) := by
  rw [basicQueryRunLoop,
    show client n (basicQueryAt queryName frame numArgs baseRowID n) =
      ((client n (basicQueryAt queryName frame numArgs baseRowID n)).1, none) from by rw [← h]]

theorem basicQueryRunLoop_step_fail {ρ : Type} (client : Nat → Call → Option ρ × Option String)
    (dur : Nat → Nat) (queryName frame : String) (numArgs : Nat) (baseRowID : Int)
    (k n : Nat) (res : Result ρ) (e : String)
    (h : (client n (basicQueryAt queryName frame numArgs baseRowID n)).2 = some e) :
    basicQueryRunLoop client dur queryName frame numArgs baseRowID (k + 1) n res =
      { res.add (dur n) none with err := some e } := by
  rw [basicQueryRunLoop,
    show client n (basicQueryAt queryName frame numArgs baseRowID n) =
      ((client n (basicQueryAt queryName frame numArgs baseRowID n)).1, some e) from by
        rw [← h]]

/-- C2 (amended): for a `Query` (or `BasicQuery`) runner whose client
submission succeeds on the first 2 calls and fails on the 3rd, `Run` returns
a `Result` containing exactly **3** recorded measurements — the failing
call's measurement is appended before the error check — and a non-nil
error. -/
theorem run_records_failing_third_call {ρ : Type}
    (client : Nat → Option ρ × Option String)
    (clientB : Nat → Call → Option ρ × Option String) (dur : Nat → Nat)
    (iterations : Int) (queryName frame : String) (numArgs baseRowID : Int)
    (hiter : 3 ≤ iterations) (hnn : 0 ≤ numArgs)
    (h0 : (client 0).2 = none) (h1 : (client 1).2 = none) (h2 : (client 2).2.isSome)
    (hb0 : ∀ qc, (clientB 0 qc).2 = none) (hb1 : ∀ qc, (clientB 1 qc).2 = none)
    (hb2 : ∀ qc, (clientB 2 qc).2.isSome) :
    ((QueryRun true client dur iterations).stats.length = 3 ∧
      (QueryRun true client dur iterations).err.isSome) ∧
    (∃ res, BasicQueryRun true clientB dur queryName frame numArgs baseRowID iterations =
        some res ∧ res.stats.length = 3 ∧ res.err.isSome) := by
  obtain ⟨m, hm⟩ : ∃ m, iterations.toNat = m + 1 + 1 + 1 :=
    ⟨iterations.toNat - 3, by omega⟩
  obtain ⟨e, he⟩ := Option.isSome_iff_exists.mp h2
  obtain ⟨eb, heb⟩ := Option.isSome_iff_exists.mp
    (hb2 (basicQueryAt queryName frame numArgs.toNat baseRowID 2))
  constructor
  · rw [QueryRun]
    simp only [Bool.not_true, Bool.false_eq_true, if_false, hm]
    rw [queryRunLoop_step_ok client dur _ _ _ h0,
      queryRunLoop_step_ok client dur _ _ _ h1,
      queryRunLoop_step_fail client dur _ _ _ e he]
    simp [Result.add, NewResult]
  · refine ⟨{ stats := [(dur 0, none), (dur 1, none), (dur 2, none)], err := some eb },
      ?_, by simp, by simp⟩
    rw [BasicQueryRun]
    simp only [Bool.not_true, Bool.false_eq_true, if_false,
      if_neg (show ¬ numArgs < 0 by omega), hm]
    rw [basicQueryRunLoop_step_ok clientB dur queryName frame numArgs.toNat baseRowID _ _ _
        (hb0 _),
      basicQueryRunLoop_step_ok clientB dur queryName frame numArgs.toNat baseRowID _ _ _
        (hb1 _),
      basicQueryRunLoop_step_fail clientB dur queryName frame numArgs.toNat baseRowID _ _ _
        eb heb]
    simp [Result.add, NewResult]

/-- C2 (counterexample): with a concrete client that succeeds on the first
two calls and fails on the third, `Run` records 3 measurements, not 2 as the
claim states. -/
theorem queryRun_three_measurements_not_two :
    (QueryRun true failThirdClient (fun _ => 0) 5).stats.length = 3 ∧
    ((QueryRun true failThirdClient (fun _ => 0) 5).stats.length == 2) = false := by
  constructor
  · decide
  · decide

/-- Witness for `run_records_failing_third_call` at concrete clients. -/
theorem run_records_failing_third_call_witness :
    ((QueryRun true failThirdClient (fun _ => 0) 5).stats.length = 3 ∧
      (QueryRun true failThirdClient (fun _ => 0) 5).err.isSome) ∧
    (∃ res, BasicQueryRun true failThirdClientB (fun _ => 0) "Union" "fbench" 2 0 5 =
        some res ∧ res.stats.length = 3 ∧ res.err.isSome) :=
  run_records_failing_third_call failThirdClient failThirdClientB (fun _ => 0) 5
    "Union" "fbench" 2 0 (by norm_num) (by norm_num) (by decide) (by decide) (by decide)
    (fun _ => rfl) (fun _ => rfl) (fun _ => rfl)

/-- One group generated with `randomOrder = false` emits a sorted profile-id
list, all paired with the group's bitmap id. -/
theorem genGroup_false_shape (baseProfileID maxProfileID minBitsPerMap maxBitsPerMap : Int)
    (bitmapID : Int) (r : RNG) (rows : List (Int × Int)) (cnt : Int) (r' : RNG)
    (h : genGroup baseProfileID maxProfileID minBitsPerMap maxBitsPerMap false bitmapID r =
      some (rows, cnt, r')) :
    ∃ ps : List Int, List.Sorted (· ≤ ·) ps ∧ rows = ps.map (fun p => (bitmapID, p)) := by
  rw [genGroup] at h
  split at h
  · exact absurd h (by simp)
  · split at h
    · exact absurd h (by simp)
    · split at h
      · exact absurd h (by simp)
      · rename_i ps r2 _hps
        simp only [Option.some.injEq, Prod.mk.injEq] at h
        refine ⟨profOrder false ps, ?_, by rw [← h.1]⟩
        rw [profOrder, if_neg (by simp)]
        exact List.sorted_insertionSort _ _

/-- The bitmap-id loop with `randomOrder = false` visits ids `i, i+1, …` in
ascending order, and each group's profile ids are emitted sorted. -/
theorem importLoop_false_groups (baseBitmapID baseProfileID maxProfileID minBitsPerMap
    maxBitsPerMap : Int) (bitmapIDs : List Int) :
    ∀ (k : Nat) (i : Int) (r : RNG) (rows : List (Int × Int)) (cnt : Int) (r' : RNG),
      importLoop baseBitmapID baseProfileID maxProfileID minBitsPerMap maxBitsPerMap false
        bitmapIDs k i r = some (rows, cnt, r') →
      ∃ gs : List (Int × List Int),
        gs.map Prod.fst = intRange i k ∧
        (∀ g ∈ gs, List.Sorted (· ≤ ·) g.2) ∧
        rows = (gs.map (fun g => g.2.map (fun p => (g.1, p)))).flatten := by
  intro k
  induction k with
  | zero =>
    intro i r rows cnt r' h
    rw [importLoop] at h
    simp only [Option.some.injEq, Prod.mk.injEq] at h
    exact ⟨[], by simp [intRange], by simp, by rw [← h.1]; simp⟩
  | succ k ihk =>
    intro i r rows cnt r' h
    rw [importLoop] at h
    simp only [Bool.false_eq_true, if_false] at h
    split at h
    · exact absurd h (by simp)
    · rename_i grows gcnt r1 hgroup
      split at h
      · exact absurd h (by simp)
      · rename_i rest cnt2 r2 hrest
        simp only [Option.some.injEq, Prod.mk.injEq] at h
        obtain ⟨ps, hsort, hshape⟩ :=
          genGroup_false_shape baseProfileID maxProfileID minBitsPerMap maxBitsPerMap i r
            grows gcnt r1 hgroup
        obtain ⟨gs', hfst, hsorted, hrows⟩ := ihk (i + 1) r1 rest cnt2 r2 hrest
        refine ⟨(i, ps) :: gs', ?_, ?_, ?_⟩
        · simp only [List.map_cons, hfst, intRange]
        · intro g hg
          rcases List.mem_cons.mp hg with hgeq | hgmem
          · rw [hgeq]
            exact hsort
          · exact hsorted g hgmem
        · rw [← h.1, hshape, hrows]
          simp

/-- C7: with `randomOrder = false`, the bitmap-id groups are visited in
ascending order `baseBitmapID, baseBitmapID+1, …` and within each group the
emitted profile ids are sorted ascending. -/
theorem generateImportCSV_sorted_groups (baseBitmapID maxBitmapID baseProfileID
    maxProfileID minBitsPerMap maxBitsPerMap : Int) (r : RNG) (rows : List (Int × Int))
    (cnt : Int)
    (h : GenerateImportCSV baseBitmapID maxBitmapID baseProfileID maxProfileID
      minBitsPerMap maxBitsPerMap false r = some (rows, cnt)) :
    ∃ gs : List (Int × List Int),
      gs.map Prod.fst = intRange baseBitmapID (maxBitmapID - baseBitmapID).toNat ∧
      (∀ g ∈ gs, List.Sorted (· ≤ ·) g.2) ∧
      rows = (gs.map (fun g => g.2.map (fun p => (g.1, p)))).flatten := by
  rw [GenerateImportCSV] at h
  split at h
  · exact absurd h (by simp)
  · rename_i bitmapIDs r0 hbm
    split at h
    · exact absurd h (by simp)
    · split at h
      · exact absurd h (by simp)
      · rename_i rows0 cnt0 rend hloop
        simp only [Option.some.injEq, Prod.mk.injEq] at h
        obtain ⟨gs, hfst, hsorted, hrows⟩ :=
          importLoop_false_groups baseBitmapID baseProfileID maxProfileID minBitsPerMap
            maxBitsPerMap bitmapIDs (maxBitmapID - baseBitmapID).toNat baseBitmapID r0
            rows0 cnt0 rend hloop
        exact ⟨gs, hfst, hsorted, by rw [← h.1, hrows]⟩

/-- Witness for `generateImportCSV_sorted_groups` at a concrete run. -/
theorem generateImportCSV_sorted_groups_witness :
    ∃ gs : List (Int × List Int),
      gs.map Prod.fst = intRange 0 ((2 : Int) - 0).toNat ∧
      (∀ g ∈ gs, List.Sorted (· ≤ ·) g.2) ∧
      ([((0 : Int), (0 : Int)), (1, 0)] : List (Int × Int)) =
        (gs.map (fun g => g.2.map (fun p => (g.1, p)))).flatten :=
  generateImportCSV_sorted_groups 0 2 0 10 1 3 zeroRng [(0, 0), (1, 0)] 2 (by decide)

/-- With `minBitsPerMap = 1`, `maxBitsPerMap = 2`, the bits-per-map draw is
`Int63n(1) = 0`, so every group sets exactly one bit, whatever the stream. -/
theorem genGroup_one_bit (bp mp : Int) (hp : 0 < mp - bp) (bid : Int) (r : RNG) :
    genGroup bp mp 1 2 false bid r =
      some ([(bid, ((RNG.head (RNG.tail r) % (mp - bp).toNat : Nat) : Int) + bp)], 1,
        RNG.tail (RNG.tail r)) := by
  simp [genGroup, int63n, drawProfileIDs, profOrder, sortInt64,
    List.insertionSort, List.orderedInsert,
    show ¬ (2 : Int) - 1 ≤ 0 by norm_num, show ¬ mp - bp ≤ 0 by omega]

/-- The bitmap-id loop with `minBitsPerMap = 1`, `maxBitsPerMap = 2`,
`randomOrder = false`: exactly one row per group, ids ascending from `i`,
count equal to the number of groups. -/
theorem importLoop_one_bit (bp mp : Int) (hp : 0 < mp - bp) :
    ∀ (k : Nat) (i : Int) (r : RNG), ∃ (rows : List (Int × Int)) (r' : RNG),
      importLoop 0 bp mp 1 2 false [] k i r = some (rows, (k : Int), r') ∧
      rows.map Prod.fst = intRange i k ∧ rows.length = k := by
  intro k
  induction k with
  | zero =>
    intro i r
    exact ⟨[], r, by rw [importLoop]; norm_num, by simp [intRange], rfl⟩
  | succ k ihk =>
    intro i r
    obtain ⟨rows, r', hloop, hfst, hlen⟩ := ihk (i + 1) (RNG.tail (RNG.tail r))
    refine ⟨(i, ((RNG.head (RNG.tail r) % (mp - bp).toNat : Nat) : Int) + bp) :: rows, r',
      ?_, ?_, ?_⟩
    · rw [importLoop]
      simp only [Bool.false_eq_true, if_false]
      rw [genGroup_one_bit bp mp hp i r]
      simp only [hloop]
      have : (1 : Int) + (k : Int) = ((k + 1 : Nat) : Int) := by push_cast; ring
      simp [this]
    · simp [hfst, intRange]
    · simp [hlen]

/-- C8: the concrete scenario `Generate(0, 3, 0, 100, 1, 2, seed 42, no
random order)` emits exactly one CSV line per bit set — the returned count
equals the number of lines written — with bitmap ids in strict ascending
order `0, 1, 2`; and the output is a function of the seeded stream alone, so
two invocations with the same arguments produce byte-for-byte identical
output and equal counts. -/
theorem generateImportCSV_seed42_scenario :
    (∀ r : RNG, ∃ rows : List (Int × Int),
        GenerateImportCSV 0 3 0 100 1 2 false r =
          some (rows, ((rows.map csvLine).length : Int)) ∧
        rows.map Prod.fst = [0, 1, 2]) ∧
    (∀ r₁ r₂ : RNG, (∀ n, r₁ n = r₂ n) →
        GenerateImportCSV 0 3 0 100 1 2 false r₁ =
          GenerateImportCSV 0 3 0 100 1 2 false r₂) := by
  constructor
  · intro r
    obtain ⟨rows, r', hloop, hfst, hlen⟩ := importLoop_one_bit 0 100 (by norm_num) 3 0 r
    refine ⟨rows, ?_, by rw [hfst]; decide⟩
    rw [GenerateImportCSV]
    simp only [Bool.false_eq_true, if_false, show ((3 : Int) - 0).toNat = 3 from rfl,
      if_neg (show ¬ (2 : Int) < 0 by norm_num), hloop]
    simp [hlen]
  · intro r₁ r₂ hext
    rw [funext hext]

/-- Witness for `generateImportCSV_seed42_scenario` at the all-zero stream. -/
theorem generateImportCSV_seed42_scenario_witness :
    ∃ rows : List (Int × Int),
      GenerateImportCSV 0 3 0 100 1 2 false zeroRng =
        some (rows, ((rows.map csvLine).length : Int)) ∧
      rows.map Prod.fst = [0, 1, 2] :=
  generateImportCSV_seed42_scenario.1 zeroRng

theorem Heap.get_append_new (h : Heap) (m : ArgMap) :
    Heap.get ⟨h.maps ++ [m]⟩ h.maps.length = m := by
  simp [Heap.get, List.getD_eq_getElem?_getD, List.getElem?_append_right]

theorem Heap.get_append_old (h : Heap) (m : ArgMap) (ref : Nat)
    (hlt : ref < h.maps.length) :
    Heap.get ⟨h.maps ++ [m]⟩ ref = Heap.get h ref := by
  simp [Heap.get, List.getD_eq_getElem?_getD, List.getElem?_append, hlt]

theorem Heap.get_set_same (maps : List ArgMap) (ref : Nat) (m : ArgMap)
    (hlt : ref < maps.length) :
    Heap.get ⟨maps.set ref m⟩ ref = m := by
  simp [Heap.get, List.getD_eq_getElem?_getD, List.getElem?_set_self hlt]

theorem Heap.get_set_other (maps : List ArgMap) (ref ref' : Nat) (m : ArgMap)
    (hne : ref ≠ ref') :
    Heap.get ⟨maps.set ref m⟩ ref' = Heap.get ⟨maps⟩ ref' := by
  simp [Heap.get, List.getD_eq_getElem?_getD, List.getElem?_set_ne hne]

/-- C9: `SetRowAttrs` and `SetColumnAttrs` leave the caller's attrs map
unchanged: the constructed node's argument map is a freshly allocated shallow
copy of `attrs`, and the keys the constructors add (`id`, and `columnID` for
`SetRowAttrs`) are added only to that copy. -/
theorem setAttrs_do_not_mutate_caller (h : Heap) (id : Nat) (frame : String)
    (attrs : Nat) (hvalid : attrs < h.maps.length) :
    (Heap.get (SetRowAttrs h id frame attrs).1 attrs = Heap.get h attrs ∧
     (SetRowAttrs h id frame attrs).2.argsRef ≠ attrs ∧
     Heap.get (SetRowAttrs h id frame attrs).1 (SetRowAttrs h id frame attrs).2.argsRef =
       mapAssign (mapAssign (Heap.get h attrs) "id" (.u64 id)) "columnID" (.str frame)) ∧
    (Heap.get (SetColumnAttrs h id attrs).1 attrs = Heap.get h attrs ∧
     (SetColumnAttrs h id attrs).2.argsRef ≠ attrs ∧
     Heap.get (SetColumnAttrs h id attrs).1 (SetColumnAttrs h id attrs).2.argsRef =
       mapAssign (Heap.get h attrs) "id" (.u64 id)) := by
  have hne : h.maps.length ≠ attrs := by omega
  have e1 : Heap.get ⟨h.maps ++ [Heap.get h attrs]⟩ h.maps.length = Heap.get h attrs :=
    Heap.get_append_new h (Heap.get h attrs)
  have lenapp : (h.maps ++ [Heap.get h attrs]).length = h.maps.length + 1 := by simp
  constructor
  · simp only [SetRowAttrs, copyArgs, Heap.alloc, Heap.assign]
    refine ⟨?_, by simpa using hne, ?_⟩
    · rw [Heap.get_set_other _ _ _ _ hne, Heap.get_set_other _ _ _ _ hne]
      exact Heap.get_append_old h (Heap.get h attrs) attrs hvalid
    · rw [Heap.get_set_same _ _ _ (by simp [List.length_set, lenapp])]
      rw [Heap.get_set_same _ _ _ (by simp [lenapp]), e1]
  · simp only [SetColumnAttrs, copyArgs, Heap.alloc, Heap.assign]
    refine ⟨?_, by simpa using hne, ?_⟩
    · rw [Heap.get_set_other _ _ _ _ hne]
      exact Heap.get_append_old h (Heap.get h attrs) attrs hvalid
    · rw [Heap.get_set_same _ _ _ (by simp [lenapp]), e1]

/-- Witness for `setAttrs_do_not_mutate_caller` at a concrete one-map heap. -/
theorem setAttrs_do_not_mutate_caller_witness :
    (Heap.get (SetRowAttrs ⟨[[("color", .str "blue")]]⟩ 7 "f" 0).1 0 =
       Heap.get ⟨[[("color", .str "blue")]]⟩ 0 ∧
     (SetRowAttrs ⟨[[("color", .str "blue")]]⟩ 7 "f" 0).2.argsRef ≠ 0 ∧
     Heap.get (SetRowAttrs ⟨[[("color", .str "blue")]]⟩ 7 "f" 0).1
         (SetRowAttrs ⟨[[("color", .str "blue")]]⟩ 7 "f" 0).2.argsRef =
       mapAssign (mapAssign (Heap.get ⟨[[("color", .str "blue")]]⟩ 0) "id" (.u64 7))
         "columnID" (.str "f")) ∧
    (Heap.get (SetColumnAttrs ⟨[[("color", .str "blue")]]⟩ 7 0).1 0 =
       Heap.get ⟨[[("color", .str "blue")]]⟩ 0 ∧
     (SetColumnAttrs ⟨[[("color", .str "blue")]]⟩ 7 0).2.argsRef ≠ 0 ∧
     Heap.get (SetColumnAttrs ⟨[[("color", .str "blue")]]⟩ 7 0).1
         (SetColumnAttrs ⟨[[("color", .str "blue")]]⟩ 7 0).2.argsRef =
       mapAssign (Heap.get ⟨[[("color", .str "blue")]]⟩ 0) "id" (.u64 7)) :=
  setAttrs_do_not_mutate_caller ⟨[[("color", .str "blue")]]⟩ 7 "f" 0 (by norm_num)

end Bench
